import Mathlib

/-!
# CashFlow Manager API — verification of the authentication core

A shallow embedding of the authentication and request-governance core of
the CashFlow Manager backend (`src/main.py`), with theorems checking the
specification's claims against it.

Modelling conventions:
* Machine time is `Int` (seconds since the epoch).  Python reads the clock
  several times within one flow; each read is passed in explicitly.
  `datetime.utcnow()` reads the UTC clock; `datetime.now()` reads the local
  clock, modelled as the corresponding UTC instant plus a fixed timezone
  offset `off` (`off = 0` for a server running on UTC).
* The storage layer is modelled at its interface boundary, as the spec
  directs: each SQL statement is modelled by its effect on an abstract `DB`
  state (a list of user rows and of session rows).
* psycopg2 cursors close when their `with` block exits and raise
  `InterfaceError: cursor already closed` when used afterwards.  The
  register, login and change-password handlers do exactly that on their
  success paths (the executes at src/main.py lines 792, 850 and 952 use
  cursors closed when the inner blocks ended at lines 783, 830 and 949;
  register's session INSERT additionally uses `?` placeholders psycopg2
  rejects), so those paths are modelled as the uncaught `InterfaceError`
  — a 500, with `get_db_connection` rolling the uncommitted transaction
  back.
* External libraries (PyJWT, passlib bcrypt, psycopg2, requests) are
  modelled at their documented interfaces; bcrypt digests and JWT
  signatures are modelled as injective taggings, and the JWKS fetch as a
  parameter holding the outcome of the HTTP request.
* `sanitize_string` rewrites text fields inside the pydantic validators
  before the handlers run; no claim refers to it, so handler inputs are
  taken to be the already-validated (sanitized) pydantic objects.
-/

namespace CashFlow

/-! ## Security configuration (src/main.py lines 134-161) -/

def SECRET_KEY : String := "your-secret-key-change-in-production"

def ALGORITHM : String := "HS256"

def ACCESS_TOKEN_EXPIRE_MINUTES : Int := 30

def REFRESH_TOKEN_EXPIRE_DAYS : Int := 7

def MIN_PASSWORD_LENGTH : Nat := 12

def MAX_PASSWORD_LENGTH : Nat := 128

/-! ## Input validation (src/main.py lines 163-223) -/

/-- The fixed punctuation set scanned by `validate_password_strength`
(the braces are written with escapes). -/
def specialChars : String := "!@#$%^&*()_+-=[]\x7b\x7d|;:,.<>?"

/-- `validate_password_strength` (src/main.py 196-213): returns
`(ok, reason)`; the f-string messages are rendered with the constant
values 12 and 128.  The `any(... for c in password)` generators iterate
over the characters, modelled by `String.toList`. -/
def validate_password_strength (password : String) : Bool × String :=
  if password.length < MIN_PASSWORD_LENGTH then
    (false, "Password must be at least 12 characters long")
  else if password.length > MAX_PASSWORD_LENGTH then
    (false, "Password must be less than 128 characters")
  else
    let has_upper := password.toList.any Char.isUpper
    let has_lower := password.toList.any Char.isLower
    let has_digit := password.toList.any Char.isDigit
    let has_special := password.toList.any (fun c => specialChars.toList.contains c)
    if !(has_upper && has_lower && has_digit && has_special) then
      (false, "Password must contain uppercase, lowercase, digit, and special character")
    else
      (true, "Password is strong")

/-- Character class `[a-zA-Z0-9._%+-]` of the local part of the email
regex in `validate_email`. -/
def isEmailLocalChar (c : Char) : Bool :=
  c.isAlpha || c.isDigit || "._%+-".toList.contains c

/-- Character class `[a-zA-Z0-9-]` (a domain character other than the
dot, which is accounted for by the label split). -/
def isEmailDomainChar (c : Char) : Bool :=
  c.isAlpha || c.isDigit || c == '-'

/-- Splitting a character list at every occurrence of `sep` (the
character-level counterpart of `str.split`). -/
def splitOnChar (sep : Char) : List Char → List (List Char)
  | [] => [[]]
  | c :: rest =>
    if c == sep then [] :: splitOnChar sep rest
    else
      match splitOnChar sep rest with
      | h :: t => (c :: h) :: t
      | [] => [[c]]

/-- `validate_email` (src/main.py 191-194): the anchored regex
`[a-zA-Z0-9._%+-]+@[a-zA-Z0-9.-]+\.[a-zA-Z]{2,}`, decided by splitting at
the `@` sign and at the dots (the `[a-zA-Z]{2,}` group must run to the
end of the string, so it is exactly the part after the last dot, and the
`[a-zA-Z0-9.-]+` group is the nonempty part before that dot). -/
def validate_email (email : String) : Bool :=
  match splitOnChar '@' email.toList with
  | [localPart, domain] =>
    match (splitOnChar '.' domain).reverse with
    | tld :: mid :: rest =>
      (!localPart.isEmpty) && localPart.all isEmailLocalChar &&
      decide (2 ≤ tld.length) && tld.all Char.isAlpha &&
      (!mid.isEmpty || !rest.isEmpty) &&
      (mid :: rest).all (fun part => part.all isEmailDomainChar)
    | _ => false
  | _ => false

/-- `validate_amount` (src/main.py 215-217). -/
def validate_amount (amount : Int) : Bool :=
  0 < amount && amount ≤ 1000000000

/-! ## Credential store (src/main.py 509-515)

The passlib bcrypt context is modelled at its interface: a digest is an
injective tagging of the password, so `verify(p, hash(q))` holds exactly
when `p = q` (the spec's own testable property for the credential store). -/

def hash_password (password : String) : String :=
  "$2b$12$" ++ password

def verify_password (plain_password hashed_password : String) : Bool :=
  hash_password plain_password == hashed_password

/-! ## Local token service (src/main.py 517-551)

A JWT is modelled by its decoded content: a signed token carries its
payload and the key it was signed with; anything that does not parse as a
JWT at all is `malformed`.  `jwt_decode` is the PyJWT interface
`jwt.decode(token, key, algorithms=[ALGORITHM])`: it fails on a bad
signature or a malformed token (`InvalidTokenError`/`DecodeError`), fails
with `ExpiredSignatureError` once the embedded expiry has passed, and
otherwise yields the payload. -/

structure Payload where
  sub : String
  exp : Int
  typ : String
deriving DecidableEq, Repr

inductive Token where
  | signed (payload : Payload) (key : String)
  | malformed (raw : String)
deriving DecidableEq, Repr

inductive JwtOutcome where
  | ok (payload : Payload)
  | expiredSignature
  | invalidToken
deriving DecidableEq, Repr

def jwt_decode (token : Token) (key : String) (now : Int) : JwtOutcome :=
  match token with
  | .malformed _ => .invalidToken
  | .signed p k =>
    if k ≠ key then .invalidToken
    else if p.exp ≤ now then .expiredSignature
    else .ok p

def jwt_encode (payload : Payload) (key : String) : Token :=
  .signed payload key

/-- The serialised (bearer-string) form of a token; issued tokens always
serialise to a non-empty compact JWS string. -/
def encodeToken : Token → String
  | .signed p k => "eyJhbGciOiJIUzI1NiJ9." ++ p.sub ++ "," ++ toString p.exp ++ "," ++ p.typ ++ ".sig-" ++ k
  | .malformed raw => raw

/-- `create_access_token` (src/main.py 517-525). -/
def create_access_token (user_id : String) (nowUtc : Int) : Token :=
  jwt_encode ⟨user_id, nowUtc + ACCESS_TOKEN_EXPIRE_MINUTES * 60, "access"⟩ SECRET_KEY

/-- `create_refresh_token` (src/main.py 527-535). -/
def create_refresh_token (user_id : String) (nowUtc : Int) : Token :=
  jwt_encode ⟨user_id, nowUtc + REFRESH_TOKEN_EXPIRE_DAYS * 86400, "refresh"⟩ SECRET_KEY

/-- `hash_token` (src/main.py 549-551), sha256 modelled as an injective
tagging of the serialised token. -/
def hash_token (token : Token) : String :=
  "sha256-" ++ encodeToken token

/-- Outcome of a request handler: an `HTTPException` (plain detail or the
rate-limit detail dict), or an uncaught Python exception (which the
framework turns into a 500). -/
inductive Failure where
  | http (statusCode : Nat) (detail : String)
  | httpRate (statusCode : Nat) (error message : String) (retry_after : Nat)
  | pyError (name : String)
deriving DecidableEq, Repr

/-- `verify_token` (src/main.py 537-547).  The code catches
`jwt.ExpiredSignatureError` and then `jwt.JWTError`; PyJWT (the imported
`jwt` module — `PyJWKClient`, `jwt.algorithms` are PyJWT-only names)
defines no attribute `JWTError`, so when `jwt.decode` raises any error
other than `ExpiredSignatureError`, evaluating the second except clause
raises `AttributeError`, which escapes `verify_token`. -/
def verify_token (token : Token) (token_type : String) (now : Int) :
    Except Failure (Option Payload) :=
  match jwt_decode token SECRET_KEY now with
  | .ok payload => if payload.typ ≠ token_type then .ok none else .ok (some payload)
  | .expiredSignature => .ok none
  | .invalidToken => .error (.pyError "AttributeError: module jwt has no attribute JWTError")

/-! ## Storage model (users and auth_sessions tables) -/

structure User where
  user_id : String
  email : String
  password_hash : String
  full_name : String
  business_name : Option String
  is_active : Int
  is_verified : Int
  created_at : Int
  updated_at : Int
  last_login_at : Option Int
deriving DecidableEq, Repr

structure Session where
  session_id : String
  user_id : String
  access_token_hash : String
  refresh_token_hash : String
  expires_at : Int
  created_at : Int
  ip_address : String
deriving DecidableEq, Repr

structure DB where
  users : List User
  sessions : List Session
deriving DecidableEq, Repr

/-- `get_current_user` (src/main.py 553-577): verify the bearer token as
a local access token, then `SELECT * FROM users WHERE user_id = %s AND
is_active = 1` (`fetchone` = first matching row). -/
def get_current_user (db : DB) (token : Token) (now : Int) : Except Failure User :=
  match verify_token token "access" now with
  | .error e => .error e
  | .ok none => .error (.http 401 "Invalid or expired token")
  | .ok (some payload) =>
    match db.users.find? (fun u => u.user_id == payload.sub && u.is_active == 1) with
    | none => .error (.http 401 "User not found or inactive")
    | some user => .ok user

/-! ## Rate limiter (src/main.py 347-427)

The per-IP tables are total maps defaulting to `[]` (Python
`defaultdict(list)`), updated pointwise. -/

structure RateLimiter where
  requests : String → List (Int × String)
  failed_attempts : String → List Int

/-- The freshly constructed limiter (`RateLimiter.__init__`). -/
def RateLimiter.emptyState : RateLimiter :=
  ⟨fun _ => [], fun _ => []⟩

/-- The route classes keying `self.limits`. -/
inductive RouteClass where
  | default | transactions | summary | auth_login | auth_register
deriving DecidableEq, Repr

/-- The `self.limits` table: `(max requests, window seconds)` per class. -/
def limits : RouteClass → Nat × Nat
  | .default => (100, 60)
  | .transactions => (100, 60)
  | .summary => (50, 60)
  | .auth_login => (5, 300)
  | .auth_register => (3, 3600)

/-- Whether `needle` occurs at the start of `hay` (character lists). -/
def leadsWith : List Char → List Char → Bool
  | [], _ => true
  | _ :: _, [] => false
  | a :: as, b :: bs => a == b && leadsWith as bs

/-- Whether `needle` occurs anywhere in `hay` (character lists). -/
def hasSub (needle : List Char) : List Char → Bool
  | [] => leadsWith needle []
  | b :: bs => leadsWith needle (b :: bs) || hasSub needle bs

/-- Python's `needle in hay` substring test on strings. -/
def strContains (needle hay : String) : Bool :=
  hasSub needle.toList hay.toList

/-- The endpoint classification of `check_rate_limit` (src/main.py
380-389): first substring match wins, login before register before
transactions before summary before default. -/
def classify (endpoint : String) : RouteClass :=
  if strContains "login" endpoint then .auth_login
  else if strContains "register" endpoint then .auth_register
  else if strContains "transactions" endpoint then .transactions
  else if strContains "summary" endpoint then .summary
  else .default

/-- `RateLimiter._clean_old_requests` (src/main.py 359-365): drop this
IP's entries older than `window`, regardless of their route class. -/
def RateLimiter.clean_old_requests (rl : RateLimiter) (ip : String) (window : Nat) (now : Int) :
    RateLimiter :=
  { rl with requests := fun i =>
      if i == ip then (rl.requests ip).filter (fun te => now - te.1 < (window : Int))
      else rl.requests i }

/-- `RateLimiter.check_failed_attempts` (src/main.py 367-374): purge this
IP's failed-attempt timestamps older than `window`, then report whether
fewer than `max_attempts` remain. -/
def RateLimiter.check_failed_attempts (rl : RateLimiter) (ip : String)
    (max_attempts window : Nat) (now : Int) : RateLimiter × Bool :=
  let purged := (rl.failed_attempts ip).filter (fun t => now - t < (window : Int))
  ({ rl with failed_attempts := fun i => if i == ip then purged else rl.failed_attempts i },
   purged.length < max_attempts)

/-- `RateLimiter.record_failed_attempt` (src/main.py 376-378). -/
def RateLimiter.record_failed_attempt (rl : RateLimiter) (ip : String) (now : Int) :
    RateLimiter :=
  { rl with failed_attempts := fun i =>
      if i == ip then rl.failed_attempts ip ++ [now] else rl.failed_attempts i }

/-- `RateLimiter.check_rate_limit` (src/main.py 380-407): classify the
endpoint, purge this IP's entries older than the class window, count the
surviving entries (across all classes), reject when the count has reached
the class maximum, otherwise record the request.  The two `time.time()`
reads within one call are modelled as the same instant `now`. -/
def RateLimiter.check_rate_limit (rl : RateLimiter) (ip endpoint : String) (now : Int) :
    RateLimiter × (Bool × Nat × Nat) :=
  let limit_key := classify endpoint
  let window := (limits limit_key).2
  let max_requests := (limits limit_key).1
  let rl1 := rl.clean_old_requests ip window now
  let recent_requests := ((rl1.requests ip).filter (fun te => now - te.1 < (window : Int))).length
  if max_requests ≤ recent_requests then
    (rl1, (false, max_requests, window))
  else
    ({ rl1 with requests := fun i =>
        if i == ip then rl1.requests ip ++ [(now, endpoint)] else rl1.requests i },
     (true, max_requests - recent_requests - 1, window))

/-- The `check_rate_limit` FastAPI dependency (src/main.py 411-427):
raises 429 with the structured detail `{error, message, retry_after}`
when the limiter rejects. -/
def check_rate_limit_dep (rl : RateLimiter) (ip path : String) (now : Int) :
    RateLimiter × Except Failure Unit :=
  let out := rl.check_rate_limit ip path now
  let window := out.2.2.2
  if out.2.1 then (out.1, .ok ())
  else
    (out.1, .error (.httpRate 429 "Rate limit exceeded"
      ("Too many requests. Please try again in " ++ toString window ++ " seconds.")
      window))

/-! ## External identity verifier (src/main.py 262-290 and 579-642) -/

structure JWK where
  kid : Option String
  kty : String
  keyMaterial : String
deriving DecidableEq, Repr

structure JWKS where
  keys : List JWK
deriving DecidableEq, Repr

/-- The process-wide JWKS cache: the key set of the last successful fetch
and its fetch time, if any fetch ever succeeded. -/
abbrev JWKSCache := Option (JWKS × Int)

/-- `get_jwks` (src/main.py 266-290).  `fetchResult` is the outcome of
the HTTP GET to the provider (`none` = request failed/raised): a cached
set younger than 3600 s is served without fetching; otherwise a
successful fetch repopulates the cache, and a failed fetch returns `None`
leaving the cache as it was. -/
def get_jwks (cache : JWKSCache) (now : Int) (fetchResult : Option JWKS) :
    Option JWKS × JWKSCache :=
  match cache with
  | some (jwks, t) =>
    if now - t < 3600 then (some jwks, cache)
    else
      match fetchResult with
      | some fresh => (some fresh, some (fresh, now))
      | none => (none, cache)
  | none =>
    match fetchResult with
    | some fresh => (some fresh, some (fresh, now))
    | none => (none, none)

/-- A Supabase-issued (external) bearer token: header fields `kid` and
`alg`, the subject/email/expiry claims, and the key material it was
actually signed with.  Strings that do not parse as a JWT are
`malformedExt`. -/
inductive SupaToken where
  | wellFormed (kid : Option String) (alg : String) (sub : String)
      (email : Option String) (exp : Int) (sigKey : String)
  | malformedExt (raw : String)
deriving DecidableEq, Repr

structure SupaIdentity where
  user_id : String
  email : Option String
deriving DecidableEq, Repr

/-- An exception escaping the `try` block of `verify_supabase_token`:
one of the explicitly raised `HTTPException`s, PyJWT's
`ExpiredSignatureError`, or any other Python exception with its message. -/
inductive TryExc where
  | httpExc (statusCode : Nat) (detail : String)
  | expiredSig
  | otherExc (message : String)
deriving DecidableEq, Repr

/-- `str(e)` for the exceptions of `TryExc`; `starlette.HTTPException`
stringifies as `"{status_code}: {detail}"`. -/
def strOfTryExc : TryExc → String
  | .httpExc s d => toString s ++ ": " ++ d
  | .expiredSig => "Signature has expired"
  | .otherExc m => m

/-- The body of the `try` block of `verify_supabase_token` (src/main.py
582-631): parse the unverified header, obtain the key set via `get_jwks`
(500 if none), locate the `kid` (401 if absent), reconstruct the key per
its `kty` (401 on other key types), then `jwt.decode` with the
header-declared algorithm (audience check disabled): signature mismatch
raises an `InvalidSignatureError`, an expired `exp` raises
`ExpiredSignatureError`, otherwise the subject and email claims are
returned. -/
def verify_supabase_token_try (token : SupaToken) (cache : JWKSCache) (now : Int)
    (fetchResult : Option JWKS) : JWKSCache × Except TryExc SupaIdentity :=
  match token with
  | .malformedExt _ => (cache, .error (.otherExc "Not enough segments"))
  | .wellFormed kid _alg sub email exp sigKey =>
    let fetched := get_jwks cache now fetchResult
    match fetched.1 with
    | none => (fetched.2, .error (.httpExc 500 "Unable to fetch JWKS"))
    | some jwks =>
      match jwks.keys.find? (fun k => k.kid == kid) with
      | none => (fetched.2, .error (.httpExc 401 "Signing key not found in JWKS"))
      | some key_data =>
        if key_data.kty != "RSA" && key_data.kty != "EC" then
          (fetched.2, .error (.httpExc 401 ("Unsupported key type: " ++ key_data.kty)))
        else if sigKey != key_data.keyMaterial then
          (fetched.2, .error (.otherExc "Signature verification failed"))
        else if exp ≤ now then
          (fetched.2, .error .expiredSig)
        else
          (fetched.2, .ok ⟨sub, email⟩)

/-- `verify_supabase_token` (src/main.py 579-642).  The except clauses:
`jwt.ExpiredSignatureError` becomes 401 "Token has expired"; every other
exception — **including the `HTTPException`s raised inside the `try`
block, since `fastapi.HTTPException` subclasses `Exception`** — is caught
by the blanket `except Exception` and re-raised as
401 `"Invalid token: " + str(e)`. -/
def verify_supabase_token (token : SupaToken) (cache : JWKSCache) (now : Int)
    (fetchResult : Option JWKS) : JWKSCache × Except Failure SupaIdentity :=
  match verify_supabase_token_try token cache now fetchResult with
  | (c, .ok ident) => (c, .ok ident)
  | (c, .error .expiredSig) => (c, .error (.http 401 "Token has expired"))
  | (c, .error e) => (c, .error (.http 401 ("Invalid token: " ++ strOfTryExc e)))

/-! ## Auth endpoint handlers (src/main.py 759-964) -/

structure UserRegister where
  email : String
  password : String
  full_name : String
  business_name : Option String
deriving DecidableEq, Repr

structure UserLogin where
  email : String
  password : String
deriving DecidableEq, Repr

structure TokenResponse where
  access_token : Token
  refresh_token : Token
  token_type : String
  user_id : String
  user_email : String
  user_full_name : String
deriving DecidableEq, Repr

structure PasswordChange where
  current_password : String
  new_password : String
deriving DecidableEq, Repr

structure UserProfileOut where
  user_id : String
  email : String
  full_name : String
  business_name : Option String
  is_verified : Bool
  created_at : Int
deriving DecidableEq, Repr

/-- `register_user` handler body (src/main.py 759-810).  The duplicate
check and the users INSERT (lines 764-782) run inside the
`with conn.cursor(...)` block; that block ends at line 783, and psycopg2
closes a cursor when its `with` block exits.  The session INSERT at line
792 then calls `execute` on the closed cursor and raises
`psycopg2.InterfaceError: cursor already closed` (were the cursor open,
its `?` placeholders — psycopg2 accepts only `%s` — would make the
execute raise instead); `conn.commit()` at line 799 is never reached,
`get_db_connection` rolls the transaction back, and FastAPI answers 500.
A fresh-email registration therefore persists nothing and returns no
tokens; only the duplicate-email 400 path completes. -/
def register_user (db : DB) (user_data : UserRegister) (ip uid sid : String)
    (nowUtc off expUtc : Int) : Except Failure (DB × TokenResponse) :=
  if (db.users.find? (fun u => u.email == user_data.email)).isSome then
    .error (.http 400 "Email already registered")
  else
    .error (.pyError "InterfaceError: cursor already closed")

/-- `POST /auth/register` including the pydantic `UserRegister`
validation (src/main.py 649-666): `EmailStr` (modelled by
`validate_email`) and the password-strength validator run before the
handler; a failing validator is a 422 validation error. -/
def register_endpoint (db : DB) (user_data : UserRegister) (ip uid sid : String)
    (nowUtc off expUtc : Int) : Except Failure (DB × TokenResponse) :=
  if !(validate_email user_data.email) then
    .error (.http 422 "validation error: value is not a valid email address")
  else if (validate_password_strength user_data.password).1 = false then
    .error (.http 422 ("validation error: " ++ (validate_password_strength user_data.password).2))
  else
    register_user db user_data ip uid sid nowUtc off expUtc

/-- `login_user` handler body (src/main.py 812-880).  The user SELECT
(lines 828-829) runs inside the `with conn.cursor(...)` block, which
ends at line 830, closing the cursor; the failure paths (429/401/403,
lines 817-844) touch the cursor no further and are faithful.  On good
credentials the last-login UPDATE at line 850 executes on the closed
cursor and raises `psycopg2.InterfaceError`: the session INSERT (lines
862-867) and the commit are never reached, the transaction rolls back,
and FastAPI answers 500 — a successful-credential login stores nothing
and returns no tokens. -/
def login_user (db : DB) (rl : RateLimiter) (credentials : UserLogin) (ip : String)
    (now off expUtc createUtc : Int) (sid : String) :
    RateLimiter × DB × Except Failure TokenResponse :=
  let checked := rl.check_failed_attempts ip 10 3600 now
  let rl1 := checked.1
  if !checked.2 then
    (rl1, db, .error (.http 429 "Too many failed login attempts. Please try again later."))
  else
    match db.users.find? (fun u => u.email == credentials.email) with
    | none =>
      (rl1.record_failed_attempt ip now, db, .error (.http 401 "Invalid email or password"))
    | some user =>
      if !(verify_password credentials.password user.password_hash) then
        (rl1.record_failed_attempt ip now, db, .error (.http 401 "Invalid email or password"))
      else if user.is_active == 0 then
        (rl1, db, .error (.http 403 "Account has been disabled"))
      else
        (rl1, db, .error (.pyError "InterfaceError: cursor already closed"))

/-- `POST /auth/logout` (src/main.py 882-891): authorize via
`get_current_user`, then delete **all** session rows of that user. -/
def logout_user (db : DB) (token : Token) (now : Int) : Except Failure (DB × String) :=
  match get_current_user db token now with
  | .error e => .error e
  | .ok u =>
    .ok ({ db with sessions := db.sessions.filter (fun s => s.user_id != u.user_id) },
      "Successfully logged out")

/-- `GET /auth/me` (src/main.py 893-903). -/
def get_current_user_profile (db : DB) (token : Token) (now : Int) :
    Except Failure UserProfileOut :=
  match get_current_user db token now with
  | .error e => .error e
  | .ok u => .ok ⟨u.user_id, u.email, u.full_name, u.business_name, u.is_verified != 0, u.created_at⟩

/-- The allow-list of `PUT /auth/me`. -/
def allowed_fields : List String := ["full_name", "business_name"]

def applyProfileUpdate (u : User) (kv : String × String) : User :=
  if kv.1 == "full_name" then { u with full_name := kv.2 }
  else if kv.1 == "business_name" then { u with business_name := some kv.2 }
  else u

/-- `PUT /auth/me` (src/main.py 905-933): filter the posted map to the
allow-list, 400 if nothing remains, else update the allowed columns and
`updated_at` (a `datetime.now()` read, `nowLocal`). -/
def update_user_profile (db : DB) (token : Token) (now : Int)
    (updates : List (String × String)) (nowLocal : Int) : Except Failure (DB × String) :=
  match get_current_user db token now with
  | .error e => .error e
  | .ok u =>
    let update_data := updates.filter (fun kv => allowed_fields.contains kv.1)
    if update_data.isEmpty then
      .error (.http 400 "No valid fields to update")
    else
      .ok ({ db with users := db.users.map (fun v =>
          if v.user_id == u.user_id then
            { update_data.foldl applyProfileUpdate v with updated_at := nowLocal }
          else v) },
        "Profile updated successfully")

/-- `POST /auth/change-password` (src/main.py 935-964) including the
pydantic strength validation of `new_password` (src/main.py 686-695).
The current-password check (lines 943-948) runs inside the
`with conn.cursor(...)` block, which ends at line 949, closing the
cursor; the 422/401/400 paths are faithful.  With the correct current
password, the hash UPDATE at line 952 (and the session DELETE at line
959) execute on the closed cursor and raise `psycopg2.InterfaceError`:
nothing commits, the hash is never rotated, no session is deleted, and
FastAPI answers 500. -/
def change_password_ep (db : DB) (token : Token) (now : Int)
    (password_data : PasswordChange) (nowLocal : Int) : Except Failure (DB × String) :=
  if (validate_password_strength password_data.new_password).1 = false then
    .error (.http 422 ("validation error: " ++
      (validate_password_strength password_data.new_password).2))
  else
    match get_current_user db token now with
    | .error e => .error e
    | .ok u =>
      if !(verify_password password_data.current_password u.password_hash) then
        .error (.http 400 "Current password is incorrect")
      else
        .error (.pyError "InterfaceError: cursor already closed")

/-! ## Theorems for the specification's claims -/

/-- C9: for every string `s`, the password strength check passes iff the
length of `s` is in `[12, 128]` and `s` contains at least one uppercase
letter, one lowercase letter, one digit, and one character of the fixed
punctuation set; otherwise it returns one of the failure reason strings.
In particular `"short1!"` fails, `"NoDigitsHere!!"` fails, and
`"ValidPass123!"` passes. -/
theorem C9_password_strength :
    (∀ s : String,
      (validate_password_strength s).1 = true ↔
        (MIN_PASSWORD_LENGTH ≤ s.length ∧ s.length ≤ MAX_PASSWORD_LENGTH ∧
          s.toList.any Char.isUpper = true ∧ s.toList.any Char.isLower = true ∧
          s.toList.any Char.isDigit = true ∧
          s.toList.any (fun c => specialChars.toList.contains c) = true)) ∧
    (∀ s : String, (validate_password_strength s).1 = false →
      (validate_password_strength s).2 = "Password must be at least 12 characters long" ∨
      (validate_password_strength s).2 = "Password must be less than 128 characters" ∨
      (validate_password_strength s).2 =
        "Password must contain uppercase, lowercase, digit, and special character") ∧
    ((validate_password_strength "short1!").1 = false ∧
      (validate_password_strength "NoDigitsHere!!").1 = false ∧
      (validate_password_strength "ValidPass123!").1 = true) := by
  refine ⟨?_, ?_, by decide, by decide, by decide⟩
  · intro s
    simp only [validate_password_strength, MIN_PASSWORD_LENGTH, MAX_PASSWORD_LENGTH]
    split_ifs with h1 h2 h3
    · constructor
      · intro h; simp at h
      · rintro ⟨hlen, -, -, -, -, -⟩; omega
    · constructor
      · intro h; simp at h
      · rintro ⟨-, hlen, -, -, -, -⟩; omega
    · constructor
      · intro h; simp at h
      · rintro ⟨-, -, ha, hb, hc, hd⟩
        simp only [ha, hb, hc, hd] at h3
        simp at h3
    · simp only [Bool.not_eq_true', Bool.not_eq_false] at h3
      simp only [Bool.and_eq_true] at h3
      exact ⟨fun _ => ⟨by omega, by omega, h3.1.1.1, h3.1.1.2, h3.1.2, h3.2⟩, fun _ => rfl⟩
  · intro s
    simp only [validate_password_strength, MIN_PASSWORD_LENGTH, MAX_PASSWORD_LENGTH]
    split_ifs with h1 h2 h3
    · exact fun _ => Or.inl rfl
    · exact fun _ => Or.inr (Or.inl rfl)
    · exact fun _ => Or.inr (Or.inr rfl)
    · intro h; simp at h

/-- Witness for C9: the theorem applied at the concrete password
`"ValidPass123!"`. -/
theorem C9_password_strength_witness :
    MIN_PASSWORD_LENGTH ≤ ("ValidPass123!" : String).length ∧
      ("ValidPass123!" : String).length ≤ MAX_PASSWORD_LENGTH ∧
      ("ValidPass123!" : String).toList.any Char.isUpper = true ∧
      ("ValidPass123!" : String).toList.any Char.isLower = true ∧
      ("ValidPass123!" : String).toList.any Char.isDigit = true ∧
      ("ValidPass123!" : String).toList.any (fun c => specialChars.toList.contains c) = true :=
  (C9_password_strength.1 "ValidPass123!").mp (by decide)

/-- C3 (code bug): local token verification should return the payload iff
the signature is valid under the server secret, the token is unexpired
and the purpose matches, and return `None` in every other case *without
raising*; the expired / purpose-mismatch / success cases behave as
claimed, but an invalid signature or a malformed token makes the handler
evaluate the nonexistent exception class `jwt.JWTError`, so an
`AttributeError` escapes `verify_token` instead of `None` being
returned. -/
theorem C3_verify_token_code_bug :
    verify_token (.signed ⟨"user-1", 1000, "access"⟩ "not-the-server-secret") "access" 0
        = .error (.pyError "AttributeError: module jwt has no attribute JWTError") ∧
    verify_token (.malformed "garbage") "access" 0
        = .error (.pyError "AttributeError: module jwt has no attribute JWTError") ∧
    verify_token (.signed ⟨"user-1", 1000, "refresh"⟩ SECRET_KEY) "access" 0 = .ok none ∧
    verify_token (.signed ⟨"user-1", 1000, "access"⟩ SECRET_KEY) "refresh" 0 = .ok none ∧
    verify_token (.signed ⟨"user-1", 1000, "access"⟩ SECRET_KEY) "access" 2000 = .ok none ∧
    verify_token (.signed ⟨"user-1", 1000, "access"⟩ SECRET_KEY) "access" 0
        = .ok (some ⟨"user-1", 1000, "access"⟩) :=
  ⟨rfl, rfl, rfl, rfl, rfl, rfl⟩

/-- C4 (code bug): when no key set was ever cached and the fetch fails,
the handler raises `HTTPException(500, "Unable to fetch JWKS")` — but
`fastapi.HTTPException` subclasses `Exception`, so the function's own
blanket `except Exception` catches it and re-raises
401 `"Invalid token: 500: Unable to fetch JWKS"`: the caller sees
Unauthorized, not the claimed ServiceUnavailable 5xx. -/
theorem C4_jwks_unavailable_code_bug :
    verify_supabase_token (.wellFormed (some "kid-1") "RS256" "user-1" none 1000 "key-material")
        none 0 none
      = (none, .error (.http 401 "Invalid token: 500: Unable to fetch JWKS")) := rfl

/-- A stored user with known-good credentials. -/
def c8user : User :=
  ⟨"u-8", "b@x.com", hash_password "GoodPassword1!", "Bob", none, 1, 1, 0, 0, none⟩

def c8creds : UserLogin := ⟨"b@x.com", "GoodPassword1!"⟩

/-- The `auth_sessions` row the register flow builds and passes to the
failing session INSERT (src/main.py 784-797): the tokens are issued from
the UTC clock at `nowUtc`, `expires_at = datetime.utcnow() + 7d` is read
at line 790 (`expUtc`), and `created_at` reuses the `datetime.now()`
local-clock read from line 775 (`nowUtc + off`). -/
def register_attempted_session (uid sid ip : String) (nowUtc off expUtc : Int) : Session :=
  ⟨sid, uid, hash_token (create_access_token uid nowUtc),
    hash_token (create_refresh_token uid nowUtc),
    expUtc + REFRESH_TOKEN_EXPIRE_DAYS * 86400, nowUtc + off, ip⟩

/-- C8 (code bug): the claimed invariant ranges over the session rows
created by the register and login flows — but neither flow ever creates
one.  Conjunct 1: on every path, login leaves the stored state untouched
(the good-credential branch raises `InterfaceError` at line 850, before
the session INSERT).  Conjunct 2: register never returns success (its
session INSERT itself raises).  Conjunct 3: a concrete
correct-credential login evaluates to the 500.  Conjunct 4: the row
register builds and hands to the failing INSERT mixes
`datetime.utcnow()` (expiry) with `datetime.now()` (creation), so on a
server whose local clock is 1 h ahead of UTC it would violate
`expires_at ≥ created_at + 7 days` even if the INSERT worked. -/
theorem C8_session_rows_code_bug :
    (∀ (db : DB) (rl : RateLimiter) (creds : UserLogin) (ip : String)
        (now off expUtc createUtc : Int) (sid : String),
      (login_user db rl creds ip now off expUtc createUtc sid).2.1 = db) ∧
    (∀ (db : DB) (ud : UserRegister) (ip uid sid : String) (nowUtc off expUtc : Int),
      ∃ e : Failure, register_user db ud ip uid sid nowUtc off expUtc = .error e) ∧
    (login_user ⟨[c8user], []⟩ RateLimiter.emptyState c8creds "9.9.9.9" 0 0 0 1 "sid-9").2.2
        = .error (.pyError "InterfaceError: cursor already closed") ∧
    ((register_attempted_session "uid-8" "sid-8" "9.9.9.9" 0 3600 0).expires_at
        < (register_attempted_session "uid-8" "sid-8" "9.9.9.9" 0 3600 0).created_at
            + REFRESH_TOKEN_EXPIRE_DAYS * 86400) := by
  refine ⟨?_, ?_, rfl, by decide⟩
  · intro db rl creds ip now off expUtc createUtc sid
    simp only [login_user]
    split_ifs with h1
    · rfl
    · cases hf : db.users.find? (fun u => u.email == creds.email) with
      | none => rfl
      | some u =>
        dsimp only
        split_ifs with h2 h3 <;> rfl
  · intro db ud ip uid sid nowUtc off expUtc
    simp only [register_user]
    split_ifs with h1 <;> exact ⟨_, rfl⟩

/-- The user, session and token of the C1 scenario. -/
def c1user : User :=
  ⟨"u-1", "a@x.com", hash_password "OldValidPass1!", "Alice", none, 1, 1, 0, 0, none⟩

def c1sess : Session := ⟨"sid-1", "u-1", "h-a", "h-r", 604800, 0, "9.9.9.9"⟩

def c1db : DB := ⟨[c1user], [c1sess]⟩

/-- The access token issued to `u-1` at time 0 (expires at 1800). -/
def c1tok : Token := create_access_token "u-1" 0

def c1pd : PasswordChange := ⟨"OldValidPass1!", "NewValidPass1!"⟩

/-- C1 (code bug): the claim presupposes a successful
`POST /auth/change-password` after which a pre-change token fails
authorization on `GET /auth/me`.  The code has no successful
change-password: with the correct current password the handler reaches
the hash UPDATE at line 952 and the session DELETE at line 959 on the
cursor closed at line 949, raising `InterfaceError` (a 500) — the hash
is never rotated, no session is deleted, and the transaction rolls back
(conjuncts 1 and 3).  The store being untouched, the earlier access
token still authorizes `GET /auth/me` afterwards (conjunct 2); and
`get_current_user` never consults the session table, so even the
intended session deletion would not have invalidated it (the spec's own
4.3 accepted limitation). -/
theorem C1_change_password_code_bug :
    change_password_ep c1db c1tok 10 c1pd 11
        = .error (.pyError "InterfaceError: cursor already closed") ∧
    get_current_user_profile c1db c1tok 20
        = .ok ⟨"u-1", "a@x.com", "Alice", none, true, 0⟩ ∧
    (∀ (db : DB) (tok : Token) (now : Int) (pd : PasswordChange) (nowLocal : Int),
      ∃ e : Failure, change_password_ep db tok now pd nowLocal = .error e) := by
  refine ⟨rfl, rfl, ?_⟩
  intro db tok now pd nowLocal
  simp only [change_password_ep]
  split_ifs with hst
  · exact ⟨_, rfl⟩
  · cases hgcu : get_current_user db tok now with
    | error e => exact ⟨e, rfl⟩
    | ok u =>
      dsimp only
      split_ifs with hvp
      · exact ⟨_, rfl⟩
      · exact ⟨_, rfl⟩

/-- The spec's registration scenario. -/
def c2reg : UserRegister := ⟨"a@x.com", "Abcdef1!2345", "Alice", none⟩

/-- A store already holding a user with the scenario's email. -/
def c2dbSeeded : DB :=
  ⟨[⟨"u-2", "a@x.com", hash_password "SomeOtherPass1!", "Ann", none, 1, 1, 0, 0, none⟩], []⟩

/-- C2 (code bug): a fresh-email registration never succeeds — the
session INSERT at lines 792-797 runs on the cursor closed at line 783
(and uses `?` placeholders psycopg2 rejects), so the handler raises,
the transaction rolls back, and no tokens are returned (conjunct 1 at
the spec's scenario, conjunct 3 in general).  Because nothing persists,
a second registration with the same email raises the same 500 instead
of the claimed 400; the duplicate-email 400 completes only when a user
row with that email already exists in storage (conjunct 2). -/
theorem C2_register_code_bug :
    register_endpoint ⟨[], []⟩ c2reg "9.9.9.9" "uid-2" "sid-2" 0 0 0
        = .error (.pyError "InterfaceError: cursor already closed") ∧
    register_endpoint c2dbSeeded c2reg "9.9.9.9" "uid-2" "sid-2" 0 0 0
        = .error (.http 400 "Email already registered") ∧
    (∀ (db : DB) (ud : UserRegister) (ip uid sid : String) (nowUtc off expUtc : Int),
      ∃ e : Failure, register_endpoint db ud ip uid sid nowUtc off expUtc = .error e) := by
  refine ⟨rfl, rfl, ?_⟩
  intro db ud ip uid sid nowUtc off expUtc
  simp only [register_endpoint, register_user]
  split_ifs <;> exact ⟨_, rfl⟩

/-- A cached key set holding only `kid-1`, fetched at time 1000 (still
fresh at time 2000). -/
def c5cache : JWKSCache := some (⟨[⟨some "kid-1", "RSA", "km-1"⟩]⟩, 1000)

/-- A correctly signed external token for `kid-1` that expired at 1500. -/
def c5tokExpired : SupaToken := .wellFormed (some "kid-1") "RS256" "user-5" none 1500 "km-1"

/-- An unexpired external token whose `kid` is absent from the key set. -/
def c5tokBadKid : SupaToken := .wellFormed (some "kid-x") "RS256" "user-5" none 9999 "km-1"

/-- C5 (counterexample): the claim says no token-verification failure
response reveals which specific check failed; but the external verifier
returns 401 "Token has expired" for an expired token and
401 "Invalid token: 401: Signing key not found in JWKS" for an unknown
signing key — two distinguishable failure responses naming the failed
check. -/
theorem C5_counterexample :
    (verify_supabase_token c5tokExpired c5cache 2000 none).2
        = .error (.http 401 "Token has expired") ∧
    (verify_supabase_token c5tokBadKid c5cache 2000 none).2
        = .error (.http 401 "Invalid token: 401: Signing key not found in JWKS") ∧
    ("Token has expired" : String) ≠ "Invalid token: 401: Signing key not found in JWKS" :=
  ⟨rfl, rfl, by decide⟩

/-- C5 (amended): the login part of the claim holds — for any state, a
login attempt with an unknown email and one with a known email but wrong
password produce the *identical* 401 "Invalid email or password"
response (provided the failed-attempt throttle admits the attempts);
token-verification failures, however, carry check-specific detail
strings (see the counterexample). -/
theorem C5_amended (db : DB) (rl : RateLimiter) (ip : String)
    (now off expUtc createUtc : Int) (sid : String)
    (creds1 creds2 : UserLogin) (u : User)
    (hthr : ((rl.failed_attempts ip).filter (fun t => now - t < (3600 : Int))).length < 10)
    (h1 : ∀ v ∈ db.users, v.email ≠ creds1.email)
    (h2 : db.users.find? (fun v => v.email == creds2.email) = some u)
    (h2pw : verify_password creds2.password u.password_hash = false) :
    (login_user db rl creds1 ip now off expUtc createUtc sid).2.2
        = .error (.http 401 "Invalid email or password") ∧
    (login_user db rl creds2 ip now off expUtc createUtc sid).2.2
        = .error (.http 401 "Invalid email or password") := by
  have hc2 : (rl.check_failed_attempts ip 10 3600 now).2 = true := by
    simp only [RateLimiter.check_failed_attempts, decide_eq_true_eq]
    exact hthr
  have hfind1 : db.users.find? (fun v => v.email == creds1.email) = none := by
    apply List.find?_eq_none.mpr
    intro x hx
    simpa using h1 x hx
  constructor
  · simp only [login_user, hc2, Bool.not_true, Bool.false_eq_true, if_false, hfind1]
  · simp only [login_user, hc2, Bool.not_true, Bool.false_eq_true, if_false, h2, h2pw,
      Bool.not_false, if_true]

/-- The stored user of the C5 witness scenario. -/
def c5user : User :=
  ⟨"u-5", "b@x.com", hash_password "RightPass1!xx", "Bob", none, 1, 1, 0, 0, none⟩

/-- Witness for the amended C5: with `b@x.com` stored, a login as the
unknown `unknown@x.com` and a login as `b@x.com` with a wrong password
yield the same 401 response. -/
theorem C5_amended_witness :
    (login_user ⟨[c5user], []⟩ RateLimiter.emptyState ⟨"unknown@x.com", "whatever"⟩
        "9.9.9.9" 0 0 0 0 "sid-5").2.2 = .error (.http 401 "Invalid email or password") ∧
    (login_user ⟨[c5user], []⟩ RateLimiter.emptyState ⟨"b@x.com", "WrongPass1!xx"⟩
        "9.9.9.9" 0 0 0 0 "sid-5").2.2 = .error (.http 401 "Invalid email or password") := by
  have h := C5_amended ⟨[c5user], []⟩ RateLimiter.emptyState "9.9.9.9" 0 0 0 0 "sid-5"
      ⟨"unknown@x.com", "whatever"⟩ ⟨"b@x.com", "WrongPass1!xx"⟩ c5user
      (by decide)
      (by intro v hv; simp at hv; subst hv; decide)
      (by decide) (by decide)
  exact ⟨h.1, h.2⟩

/-- After `check_failed_attempts`, the IP's failed list is exactly the
purged list. -/
theorem check_failed_attempts_state (rl : RateLimiter) (ip : String)
    (m w : Nat) (now : Int) :
    ((rl.check_failed_attempts ip m w now).1).failed_attempts ip
      = (rl.failed_attempts ip).filter (fun t => now - t < (w : Int)) := by
  simp [RateLimiter.check_failed_attempts]

/-- `record_failed_attempt` appends one timestamp to the IP's list. -/
theorem record_failed_attempt_state (rl : RateLimiter) (ip : String) (now : Int) :
    (rl.record_failed_attempt ip now).failed_attempts ip
      = rl.failed_attempts ip ++ [now] := by
  simp [RateLimiter.record_failed_attempt]

/-- C7: once an IP has 10 failed login attempts inside the 1-hour window,
the next login attempt from that IP is rejected with 429 before any
credential check (the outcome and the database are independent of the
submitted credentials, which are universally quantified here, and the
rejection is produced by the failed-attempt throttle alone, for any state
of the generic limiter); moreover the failed-attempt list grows (beyond
the lazy purge) exactly on failed credential checks. -/
theorem C7_failed_login_throttle (db : DB) (rl : RateLimiter) (creds : UserLogin)
    (ip : String) (now off expUtc createUtc : Int) (sid : String) :
    ((10 ≤ ((rl.failed_attempts ip).filter (fun t => now - t < (3600 : Int))).length) →
      login_user db rl creds ip now off expUtc createUtc sid
        = ((rl.check_failed_attempts ip 10 3600 now).1, db,
            .error (.http 429 "Too many failed login attempts. Please try again later."))) ∧
    (((login_user db rl creds ip now off expUtc createUtc sid).1.failed_attempts ip
        = ((rl.failed_attempts ip).filter (fun t => now - t < (3600 : Int))) ++ [now])
      ↔ (login_user db rl creds ip now off expUtc createUtc sid).2.2
          = .error (.http 401 "Invalid email or password")) ∧
    ((login_user db rl creds ip now off expUtc createUtc sid).2.2
          ≠ .error (.http 401 "Invalid email or password") →
      (login_user db rl creds ip now off expUtc createUtc sid).1.failed_attempts ip
        = (rl.failed_attempts ip).filter (fun t => now - t < (3600 : Int))) := by
  by_cases hthr : ((rl.failed_attempts ip).filter (fun t => now - t < (3600 : Int))).length < 10
  · -- the throttle admits the attempt
    have hc2 : (rl.check_failed_attempts ip 10 3600 now).2 = true := by
      simp only [RateLimiter.check_failed_attempts, decide_eq_true_eq]
      exact hthr
    refine ⟨fun hge => absurd hthr (Nat.not_lt.mpr hge), ?_, ?_⟩
    · -- growth of the failed list ↔ invalid-credentials response
      rcases hfind : db.users.find? (fun v => v.email == creds.email) with - | u
      · simp only [login_user, hc2, Bool.not_true, Bool.false_eq_true, if_false, hfind,
          record_failed_attempt_state, check_failed_attempts_state]
        simp
      · cases hvp : verify_password creds.password u.password_hash
        · simp only [login_user, hc2, Bool.not_true, Bool.false_eq_true, if_false, hfind,
            hvp, Bool.not_false, if_true, record_failed_attempt_state,
            check_failed_attempts_state]
          simp
        · by_cases hact : (u.is_active == 0) = true
          · simp only [login_user, hc2, Bool.not_true, Bool.false_eq_true, if_false, hfind,
              hvp, Bool.not_true, if_false, if_pos hact, check_failed_attempts_state]
            simp
          · simp only [login_user, hc2, Bool.not_true, Bool.false_eq_true, if_false, hfind,
              hvp, Bool.not_true, if_false, if_neg hact, check_failed_attempts_state]
            simp
    · -- no growth without a failed credential check
      intro hne
      rcases hfind : db.users.find? (fun v => v.email == creds.email) with - | u
      · exact absurd (by simp only [login_user, hc2, Bool.not_true, Bool.false_eq_true,
          if_false, hfind]) hne
      · cases hvp : verify_password creds.password u.password_hash
        · exact absurd (by simp only [login_user, hc2, Bool.not_true, Bool.false_eq_true,
            if_false, hfind, hvp, Bool.not_false, if_true]) hne
        · by_cases hact : (u.is_active == 0) = true
          · simp only [login_user, hc2, Bool.not_true, Bool.false_eq_true, if_false, hfind,
              hvp, Bool.not_true, if_false, if_pos hact, check_failed_attempts_state]
            norm_cast
          · simp only [login_user, hc2, Bool.not_true, Bool.false_eq_true, if_false, hfind,
              hvp, Bool.not_true, if_false, if_neg hact, check_failed_attempts_state]
            norm_cast
  · -- the throttle trips: 429 before any credential check
    have hc2 : (rl.check_failed_attempts ip 10 3600 now).2 = false := by
      simp only [RateLimiter.check_failed_attempts]
      exact decide_eq_false hthr
    have hrun : login_user db rl creds ip now off expUtc createUtc sid
        = ((rl.check_failed_attempts ip 10 3600 now).1, db,
           .error (.http 429 "Too many failed login attempts. Please try again later.")) := by
      simp only [login_user, hc2, Bool.not_false, if_true]
    refine ⟨fun _ => hrun, ?_, ?_⟩
    · simp only [hrun, check_failed_attempts_state]
      simp
    · intro hne
      simp only [hrun, check_failed_attempts_state]
      norm_cast

/-- The limiter state of the C7 witness: IP 7.7.7.7 already has ten
failed attempts recorded at time 0. -/
def c7rl : RateLimiter :=
  ⟨fun _ => [], fun i => if i == "7.7.7.7" then List.replicate 10 (0 : Int) else []⟩

/-- Witness for C7: at time 10 (well inside the hour), the 11th login
attempt from 7.7.7.7 is rejected with 429 regardless of the submitted
credentials, the stored users, or the generic limiter state. -/
theorem C7_failed_login_throttle_witness :
    login_user ⟨[], []⟩ c7rl ⟨"a@x.com", "AnyPassword1!"⟩ "7.7.7.7" 10 0 0 0 "sid-7"
      = ((c7rl.check_failed_attempts "7.7.7.7" 10 3600 10).1, ⟨[], []⟩,
         .error (.http 429 "Too many failed login attempts. Please try again later.")) :=
  (C7_failed_login_throttle ⟨[], []⟩ c7rl ⟨"a@x.com", "AnyPassword1!"⟩
    "7.7.7.7" 10 0 0 0 "sid-7").1 (by decide)

/-- C10: every endpoint behind the local-session dependency (logout,
get profile, update profile, change password) rejects with
401 "User not found or inactive" a request whose bearer token is validly
signed under the server secret, unexpired, of type access — but whose
subject user is absent from storage or has the active flag unset.  The
dependency itself re-checks `is_active = 1` on every call. -/
theorem C10_inactive_user_rejected (db : DB) (p : Payload) (now nowLocal : Int)
    (pd : PasswordChange) (updates : List (String × String))
    (hexp : now < p.exp) (hty : p.typ = "access")
    (hpw : (validate_password_strength pd.new_password).1 = true)
    (habsent : ∀ u ∈ db.users, u.user_id = p.sub → u.is_active ≠ 1) :
    get_current_user db (.signed p SECRET_KEY) now
        = .error (.http 401 "User not found or inactive") ∧
    logout_user db (.signed p SECRET_KEY) now
        = .error (.http 401 "User not found or inactive") ∧
    get_current_user_profile db (.signed p SECRET_KEY) now
        = .error (.http 401 "User not found or inactive") ∧
    update_user_profile db (.signed p SECRET_KEY) now updates nowLocal
        = .error (.http 401 "User not found or inactive") ∧
    change_password_ep db (.signed p SECRET_KEY) now pd nowLocal
        = .error (.http 401 "User not found or inactive") := by
  have hsk : ¬(SECRET_KEY ≠ SECRET_KEY) := fun h => h rfl
  have hfind : db.users.find? (fun u => u.user_id == p.sub && u.is_active == 1) = none := by
    apply List.find?_eq_none.mpr
    intro x hx hpx
    simp only [Bool.and_eq_true, beq_iff_eq] at hpx
    exact habsent x hx hpx.1 hpx.2
  have hgcu : get_current_user db (.signed p SECRET_KEY) now
      = .error (.http 401 "User not found or inactive") := by
    simp only [get_current_user, verify_token, jwt_decode, if_neg hsk,
      if_neg (not_le.mpr hexp), if_neg (by simp [hty] : ¬p.typ ≠ "access"), hfind]
  refine ⟨hgcu, ?_, ?_, ?_, ?_⟩
  · simp only [logout_user, hgcu]
  · simp only [get_current_user_profile, hgcu]
  · simp only [update_user_profile, hgcu]
  · simp only [change_password_ep, hgcu]
    rw [if_neg (by simp [hpw])]

/-- The storage of the C10 witness: user u-10 exists but its active flag
is 0. -/
def c10db : DB :=
  ⟨[⟨"u-10", "c@x.com", hash_password "SomeGoodPass1!", "Carol", none, 0, 1, 0, 0, none⟩], []⟩

/-- Witness for C10: a validly signed, unexpired access token for the
inactive user u-10 is rejected by the dependency. -/
theorem C10_inactive_user_rejected_witness :
    get_current_user c10db (.signed ⟨"u-10", 100, "access"⟩ SECRET_KEY) 0
      = .error (.http 401 "User not found or inactive") :=
  (C10_inactive_user_rejected c10db ⟨"u-10", 100, "access"⟩ 0 0
    ⟨"SomeGoodPass1!", "NewGoodPass1!"⟩ [] (by decide) rfl (by decide)
    (by decide)).1

/-- Every route class has a positive maximum and a positive window. -/
theorem limits_pos (c : RouteClass) : 0 < (limits c).1 ∧ 0 < (limits c).2 := by
  cases c <;> exact ⟨by decide, by decide⟩

/-- Normal form of one `check_rate_limit` call: purge this IP's entries
older than the class window (whatever their class), then reject keeping
only the purged list when the purged count has reached the class max,
else record the new request. -/
theorem check_rate_limit_eq (rl : RateLimiter) (ip ep : String) (now : Int) :
    rl.check_rate_limit ip ep now =
      (if (limits (classify ep)).1 ≤
          ((rl.requests ip).filter
            (fun te => now - te.1 < ((limits (classify ep)).2 : Int))).length then
        ({ rl with requests := fun i => if i == ip then
            ((rl.requests ip).filter
              (fun te => now - te.1 < ((limits (classify ep)).2 : Int)))
          else rl.requests i },
         (false, (limits (classify ep)).1, (limits (classify ep)).2))
      else
        ({ rl with requests := fun i => if i == ip then
            ((rl.requests ip).filter
              (fun te => now - te.1 < ((limits (classify ep)).2 : Int))) ++ [(now, ep)]
          else rl.requests i },
         (true, (limits (classify ep)).1 -
            ((rl.requests ip).filter
              (fun te => now - te.1 < ((limits (classify ep)).2 : Int))).length - 1,
          (limits (classify ep)).2))) := by
  simp only [RateLimiter.check_rate_limit, RateLimiter.clean_old_requests, beq_self_eq_true,
    if_true, List.filter_filter, Bool.and_self]
  split_ifs with h
  · rfl
  · congr 1

/-- Iterating `check_rate_limit` from a state, for the same ip, endpoint
and instant. -/
def checkRepeat (ip ep : String) (now : Int) : Nat → RateLimiter → RateLimiter
  | 0, rl => rl
  | n + 1, rl => ((checkRepeat ip ep now n rl).check_rate_limit ip ep now).1

/-- One step of the scenario: from a state holding `k` same-instant
entries for this IP, the check admits when `k` is below the class max
(appending the request) and rejects with `(false, max, window)` once `k`
has reached it. -/
theorem check_step_replicate (S : RateLimiter) (ip ep : String) (now : Int) (k : Nat)
    (hS : S.requests ip = List.replicate k (now, ep)) :
    (k < (limits (classify ep)).1 →
        (S.check_rate_limit ip ep now).2.1 = true ∧
        ((S.check_rate_limit ip ep now).1).requests ip
          = List.replicate (k + 1) (now, ep)) ∧
    ((limits (classify ep)).1 ≤ k →
        (S.check_rate_limit ip ep now).2
          = (false, (limits (classify ep)).1, (limits (classify ep)).2)) := by
  have hw : 0 < (limits (classify ep)).2 := (limits_pos _).2
  have hwz : (0 : Int) < ((limits (classify ep)).2 : Int) := by exact_mod_cast hw
  have hfilt : (List.replicate k ((now, ep) : Int × String)).filter
      (fun te => now - te.1 < ((limits (classify ep)).2 : Int))
        = List.replicate k (now, ep) := by
    rw [List.filter_replicate]
    split_ifs with hcond
    · rfl
    · exfalso
      simp at hcond
      omega
  constructor
  · intro hk
    rw [check_rate_limit_eq, hS, hfilt, List.length_replicate,
      if_neg (Nat.not_le.mpr hk)]
    exact ⟨rfl, by simp [List.replicate_succ']⟩
  · intro hk
    rw [check_rate_limit_eq, hS, hfilt, List.length_replicate, if_pos hk]

/-- From a fresh limiter, `k ≤ max` same-instant checks leave exactly the
`k` recorded entries for this IP. -/
theorem checkRepeat_requests (ip ep : String) (now : Int) (k : Nat)
    (hk : k ≤ (limits (classify ep)).1) :
    (checkRepeat ip ep now k RateLimiter.emptyState).requests ip
      = List.replicate k (now, ep) := by
  induction k with
  | zero => rfl
  | succ n ih =>
    have hS := ih (Nat.le_of_succ_le hk)
    have hstep := check_step_replicate _ ip ep now n hS
    exact (hstep.1 (Nat.lt_of_lt_of_le (Nat.lt_succ_self n) hk)).2

/-- C6: each `check_rate_limit` call first purges this IP's entries older
than the class window (regardless of which class recorded them), counts
the remaining entries across all classes, rejects with
`retry_after = window` (surfaced as the 429 detail) when the count is at
least the class max `N`, and otherwise records the request and admits
it.  In particular, from a fresh limiter the first `N` same-window
requests from one IP are admitted, the `(N+1)`th is rejected, and once
the window has elapsed a new request is admitted again. -/
theorem C6_rate_limiter (rl : RateLimiter) (ip ep : String) (now later : Int) :
    (((rl.check_rate_limit ip ep now).1).requests ip
      = (if (limits (classify ep)).1 ≤
            ((rl.requests ip).filter
              (fun te => now - te.1 < ((limits (classify ep)).2 : Int))).length
        then (rl.requests ip).filter
              (fun te => now - te.1 < ((limits (classify ep)).2 : Int))
        else ((rl.requests ip).filter
              (fun te => now - te.1 < ((limits (classify ep)).2 : Int))) ++ [(now, ep)])) ∧
    ((limits (classify ep)).1 ≤
        ((rl.requests ip).filter
          (fun te => now - te.1 < ((limits (classify ep)).2 : Int))).length →
      (rl.check_rate_limit ip ep now).2
          = (false, (limits (classify ep)).1, (limits (classify ep)).2) ∧
      (check_rate_limit_dep rl ip ep now).2
          = .error (.httpRate 429 "Rate limit exceeded"
              ("Too many requests. Please try again in "
                ++ toString (limits (classify ep)).2 ++ " seconds.")
              (limits (classify ep)).2)) ∧
    (((rl.requests ip).filter
          (fun te => now - te.1 < ((limits (classify ep)).2 : Int))).length
        < (limits (classify ep)).1 →
      (rl.check_rate_limit ip ep now).2.1 = true ∧
      (check_rate_limit_dep rl ip ep now).2 = .ok ()) ∧
    (∀ k, k < (limits (classify ep)).1 →
      ((checkRepeat ip ep now k RateLimiter.emptyState).check_rate_limit ip ep now).2.1
        = true) ∧
    (((checkRepeat ip ep now ((limits (classify ep)).1)
          RateLimiter.emptyState).check_rate_limit ip ep now).2
        = (false, (limits (classify ep)).1, (limits (classify ep)).2)) ∧
    (now + ((limits (classify ep)).2 : Int) ≤ later →
      ((checkRepeat ip ep now ((limits (classify ep)).1)
          RateLimiter.emptyState).check_rate_limit ip ep later).2.1 = true) := by
  have hm : 0 < (limits (classify ep)).1 := (limits_pos _).1
  refine ⟨?_, ?_, ?_, ?_, ?_, ?_⟩
  · rw [check_rate_limit_eq]
    split_ifs with h
    · simp
    · simp
  · intro h
    refine ⟨by rw [check_rate_limit_eq, if_pos h], ?_⟩
    simp only [check_rate_limit_dep, check_rate_limit_eq, if_pos h]
    simp
  · intro h
    refine ⟨by rw [check_rate_limit_eq, if_neg (Nat.not_le.mpr h)], ?_⟩
    simp only [check_rate_limit_dep, check_rate_limit_eq, if_neg (Nat.not_le.mpr h)]
    simp
  · intro k hk
    exact ((check_step_replicate _ ip ep now k
      (checkRepeat_requests ip ep now k (Nat.le_of_lt hk))).1 hk).1
  · exact (check_step_replicate _ ip ep now ((limits (classify ep)).1)
      (checkRepeat_requests ip ep now _ le_rfl)).2 le_rfl
  · intro hlater
    have hS := checkRepeat_requests ip ep now ((limits (classify ep)).1) le_rfl
    rw [check_rate_limit_eq, hS]
    have hfilt : (List.replicate ((limits (classify ep)).1)
        ((now, ep) : Int × String)).filter
          (fun te => later - te.1 < ((limits (classify ep)).2 : Int)) = [] := by
      rw [List.filter_replicate]
      split_ifs with hcond
      · exfalso
        simp at hcond
        omega
      · rfl
    rw [hfilt]
    simp only [List.length_nil]
    rw [if_neg (by omega)]

/-- Witness for C6, at the login class (5 requests / 300 s window): from
a fresh limiter, after 5 admitted requests at time 0 the 6th is rejected
with `(false, 5, 300)`, and a request at time 300 is admitted again. -/
theorem C6_rate_limiter_witness :
    (((checkRepeat "1.2.3.4" "/auth/login" 0 ((limits (classify "/auth/login")).1)
        RateLimiter.emptyState).check_rate_limit "1.2.3.4" "/auth/login" 0).2
      = (false, (limits (classify "/auth/login")).1, (limits (classify "/auth/login")).2)) ∧
    (((checkRepeat "1.2.3.4" "/auth/login" 0 ((limits (classify "/auth/login")).1)
        RateLimiter.emptyState).check_rate_limit "1.2.3.4" "/auth/login" 300).2.1 = true) := by
  have h := C6_rate_limiter RateLimiter.emptyState "1.2.3.4" "/auth/login" 0 300
  exact ⟨h.2.2.2.2.1, h.2.2.2.2.2 (by decide)⟩

end CashFlow
